import Mathlib

/-!
Shallow embedding of the rendering core of the `valora` repository
(`src/composition.rs`, `src/gpu/render.rs`, `src/gpu/tessellation.rs`).

External collaborator types (Mesh, Shader resources, GPU context, the lyon
triangulator, the glium draw primitive) are modelled by minimal structures or
oracle parameters; everything defined from the repository's own code follows
that code line by line.
-/

namespace Valora

/-- Opaque error value propagated unchanged through the single fallible-result
channel (spec section 7 lists the error kinds). -/
inductive Err where
  | alloc (code : Nat)
  | drawFail (code : Nat)
  | tess (code : Nat)
  deriving DecidableEq, Repr

/-- Modelled from the spec: the mesh animation hook, a scale value exposing
`.tween(frame) -> scalar` (spec section 6); the scalar is modelled as an
integer. `mesh.rs` is not under `src/`. -/
structure Scale where
  tween : Nat → Int

/-- Modelled from the spec: a Mesh is a shape's renderable geometry plus an
animated scale (spec section 3). The geometry is opaque here, identified by a
shape id; the distinguished full-frame rectangle `Rect::frame()` is shape 0. -/
structure Mesh where
  shape : Nat
  scale : Scale

/-- Rust `Mesh::from(Rect::frame())`: the full-frame rectangle mesh. -/
def frameMesh : Mesh :=
  { shape := 0, scale := { tween := fun _ => 1 } }

/-- Modelled from the spec: Shader is polymorphic over variants
{Default, Texture(source), Intermittent{inner, predicate}} (spec section 3);
composition.rs constructs `Shader::Intermittent { src, predicate }` and
`Shader::Default` directly. The predicate is a pure function of frame index. -/
inductive Shader where
  | defaultShader
  | texture (source : Nat)
  | intermittent (src : Shader) (predicate : Nat → Bool)

/-- Rust `enum Layer { Mesh(Mesh), ShadedMesh { shader, mesh } }`
(composition.rs lines 8-11). -/
inductive Layer where
  | mesh (m : Mesh)
  | shadedMesh (shader : Shader) (m : Mesh)

/-- Rust `enum LayerInput { Single(Layer), Many(Vec<Layer>) }`
(composition.rs lines 62-65). -/
inductive LayerInput where
  | single (l : Layer)
  | many (ts : List Layer)

namespace LayerInput

/-- Rust `impl Iterator for LayerInput::next` (composition.rs lines 79-97):
the `Single` case yields its layer and becomes `Many([])`; the `Many` case
pops from the BACK of the vector (`ts.pop()`). Returns the yielded item and
the successor state. -/
def next : LayerInput → Option Layer × LayerInput
  | .single il => (some il, .many [])
  | .many ts => (ts.getLast?, .many ts.dropLast)

/-- Number of items remaining in the input; strictly decreases at every
successful `next`. -/
def size : LayerInput → Nat
  | .single _ => 1
  | .many ts => ts.length

/-- Draining the iterator to exhaustion, as `collect()` / `Vec::extend` do:
repeatedly call `next` until it yields `None`. -/
def drain (li : LayerInput) : List Layer :=
  match h : li.next with
  | (none, _) => []
  | (some l, rest) => l :: drain rest
termination_by li.size
decreasing_by
  cases li with
  | single il =>
    simp only [next, Prod.mk.injEq] at h
    simp [← h.2, size]
  | many ts =>
    simp only [next, Prod.mk.injEq] at h
    cases ts with
    | nil => simp [List.getLast?] at h
    | cons a as =>
      simp [← h.2, size, List.length_dropLast]

end LayerInput

/-- Rust `struct Composition { layers: Vec<Layer> }` (composition.rs lines 99-102). -/
structure Composition where
  layers : List Layer

namespace Composition

/-- Rust `Composition::new()` via `Default` (composition.rs lines 105-107). -/
def new : Composition := { layers := [] }

/-- Rust `Composition::add` (composition.rs lines 113-116):
`self.layers.extend(layer.into())`, i.e. append the drained iterator. -/
def add (c : Composition) (layer : LayerInput) : Composition :=
  { c with layers := c.layers ++ layer.drain }

/-- A sequence of `add` calls in order. -/
def addAll (c : Composition) (inputs : List LayerInput) : Composition :=
  inputs.foldl add c

end Composition

namespace Layer

/-- Rust `Layer::freeze_frame` (composition.rs lines 20-35): wraps the layer's
shader (or `Shader::Default` for a bare mesh) in an Intermittent shader whose
predicate compares the current frame with `render_frame`. -/
def freeze_frame (src : Layer) (render_frame : Nat) : Layer :=
  let wrap_shader : Shader → Shader := fun shader =>
    Shader.intermittent shader (fun current_frame => current_frame == render_frame)
  match src with
  | .mesh m => .shadedMesh (wrap_shader .defaultShader) m
  | .shadedMesh shader m => .shadedMesh (wrap_shader shader) m

/-- Rust `Layer::once` (composition.rs lines 14-18): drain the input and map
`freeze_frame` over every produced layer. -/
def once (src : LayerInput) (render_frame : Nat) : List Layer :=
  src.drain.map (fun layer => freeze_frame layer render_frame)

end Layer

/-!
GPU side (`src/gpu/render.rs`). The external GPU resource constructors and the
shader draw primitive live outside `src/` (glium, `gpu/shaders.rs`); they are
passed as oracle functions, and the GPU side effects of `Buffer::draw` are
recorded as an explicit event trace.
-/

/-- Modelled from the spec: GPU-resident shader resource (`gpu/shaders.rs` is
not under `src/`). render.rs builds `GpuShader::Texture(texture)` for the
blitter; any other compiled shader program is opaque here. Textures are
identified by ids. -/
inductive GpuShader where
  | texture (tex : Nat)
  | program (id : Nat)
  deriving DecidableEq

/-- Modelled from the spec: GPU-resident mesh buffer; render.rs updates its
`scale` field in place each frame (`self.cached_mesh.scale = ...`). -/
structure GpuMesh where
  src : Nat
  scale : Int
  deriving DecidableEq

/-- The external GPU primitives (spec section 6), as oracles:
`GpuShader::produce`, `GpuMesh::produce`, and the shader draw primitive
`shader.draw(library, frame, target_surface, mesh, optional_secondary)`.
Libraries and surfaces are identified by ids. -/
structure GpuOracle where
  shaderProduce : Shader → Except Err GpuShader
  meshProduce : Mesh → Except Err GpuMesh
  drawPrim : GpuShader → Nat → Nat → Nat → GpuMesh → Option Nat → Except Err Unit

/-- Magnification filter of a surface-to-surface copy
(`MagnifySamplerFilter`). -/
inductive MagnifyFilter where
  | linear
  | nearest
  deriving DecidableEq

/-- One GPU side effect issued by `Buffer::draw`: a shader draw call
(shader, library, frame, written target surface, mesh, optional secondary
read surface), or a filtered copy from one surface into another
(`surfaces[0].fill(&surfaces[1], ...)`). -/
inductive Event where
  | draw (shader : GpuShader) (library : Nat) (frame : Nat) (target : Nat)
      (mesh : GpuMesh) (secondary : Option Nat)
  | fillCopy (src : Nat) (dst : Nat) (filter : MagnifyFilter)
  deriving DecidableEq

/-- Rust `struct GpuLayer` (render.rs lines 13-17): retained CPU mesh, GPU
shader resource, and the GPU mesh buffer updated in place each frame. -/
structure GpuLayer where
  src : Mesh
  shader : GpuShader
  cached_mesh : GpuMesh

namespace GpuLayer

/-- Rust `impl Factory<Layer> for GpuLayer::produce` (render.rs lines 19-31):
resolve shader and mesh from the Layer (a bare mesh gets `Shader::Default`),
produce the GPU shader then the GPU mesh (cloning the CPU mesh), retain the
CPU mesh. -/
def produce (o : GpuOracle) (spec : Layer) : Except Err GpuLayer :=
  let sm : Shader × Mesh :=
    match spec with
    | .mesh m => (Shader.defaultShader, m)
    | .shadedMesh shader m => (shader, m)
  match o.shaderProduce sm.1 with
  | .error e => .error e
  | .ok gs =>
    match o.meshProduce sm.2 with
    | .error e => .error e
    | .ok gm => .ok { shader := gs, cached_mesh := gm, src := sm.2 }

/-- Rust `GpuLayer::step` (render.rs lines 34-37):
`self.cached_mesh.scale = self.src.scale.tween(frame); Ok(self)`. -/
def step (l : GpuLayer) (frame : Nat) : Except Err GpuLayer :=
  .ok { l with cached_mesh := { l.cached_mesh with scale := l.src.scale.tween frame } }

/-- Rust `GpuLayer::render` (render.rs lines 38-40). -/
def render (l : GpuLayer) : GpuShader × GpuMesh :=
  (l.shader, l.cached_mesh)

end GpuLayer

/-- The pure state transition underlying `GpuLayer::step`: write the tween of
the retained CPU mesh's scale at `frame` into the GPU mesh's scale field. -/
def stepped (frame : Nat) (l : GpuLayer) : GpuLayer :=
  { l with cached_mesh := { l.cached_mesh with scale := l.src.scale.tween frame } }

/-- Rust `struct BufferSpec` (render.rs lines 49-52). -/
structure BufferSpec where
  width : Nat
  height : Nat

/-- Rust `struct Buffer` (render.rs lines 54-57): `targets: [Rc<Texture2d>; 2]`
(slot 0 is `target0`, slot 1 is `target1`; textures are identified by ids)
plus the precomputed blitter command. -/
structure Buffer where
  target0 : Nat
  target1 : Nat
  blitter : GpuShader × GpuMesh

namespace Buffer

/-- Rust `Buffer::blitter()` (render.rs lines 60-62): the one-element command
set drawing the blitter. -/
def blitterCmds (b : Buffer) : List (GpuShader × GpuMesh) :=
  [b.blitter]

/-- The loop of `Buffer::draw` (render.rs lines 67-77): for each command, call
the external draw primitive targeting `surfaces[0]` (the write surface) with
`targets[1]` as the optional secondary read source; on success, copy
(linear-filtered) surface 0 into surface 1 and continue; on failure, `?`
returns the error at once. The returned list is the trace of GPU calls
actually issued (the failing draw call was issued and appears; later commands
were not). -/
def drawLoop (b : Buffer) (o : GpuOracle) (library frame : Nat) :
    List (GpuShader × GpuMesh) → List Event × Except Err Unit
  | [] => ([], .ok ())
  | c :: rest =>
    match o.drawPrim c.1 library frame b.target0 c.2 (some b.target1) with
    | .error e => ([.draw c.1 library frame b.target0 c.2 (some b.target1)], .error e)
    | .ok _ =>
      let (evs, r) := drawLoop b o library frame rest
      (.draw c.1 library frame b.target0 c.2 (some b.target1) ::
        .fillCopy b.target0 b.target1 .linear :: evs, r)

/-- Rust `Buffer::draw` (render.rs lines 66-79): run the draw loop over the
commands of `DrawCtx { library, frame, cmds }`; on success return the blitter
command set. First component: the trace of issued GPU calls. -/
def draw (b : Buffer) (o : GpuOracle) (library frame : Nat)
    (cmds : List (GpuShader × GpuMesh)) :
    List Event × Except Err (List (GpuShader × GpuMesh)) :=
  let (evs, r) := drawLoop b o library frame cmds
  (evs, r.map (fun _ => b.blitterCmds))

/-- Rust `Buffer::front` (render.rs lines 81-83). -/
def front (b : Buffer) : Nat :=
  b.target0

/-- Rust `impl Factory<BufferSpec> for Buffer::produce` (render.rs lines
86-108): allocate two equal-size floating-point textures (two separate
external allocations, modelled as the fresh ids `nextTex` and `nextTex + 1`),
clear both, and build the blitter: a Texture shader sampling target 0 paired
with the GPU mesh produced from the full-frame rectangle. -/
def produce (o : GpuOracle) (nextTex : Nat) (spec : BufferSpec) : Except Err Buffer :=
  match o.meshProduce frameMesh with
  | .error e => .error e
  | .ok bm =>
    .ok { target0 := nextTex, target1 := nextTex + 1,
          blitter := (GpuShader.texture nextTex, bm) }

end Buffer

/-- Rust's `.map(f).collect::<Result<Vec<_>>>()`: apply `f` to each element in
order, short-circuiting at the first error. -/
def collectE {α β : Type} (f : α → Except Err β) : List α → Except Err (List β)
  | [] => .ok []
  | a :: as =>
    match f a with
    | .error e => .error e
    | .ok b =>
      match collectE f as with
      | .error e => .error e
      | .ok bs => .ok (b :: bs)

/-- Rust `struct RenderSpec` (render.rs lines 110-114). -/
structure RenderSpec where
  width : Nat
  height : Nat
  composition : Composition

/-- Rust `struct Render` (render.rs lines 116-119). -/
structure Render where
  layers : List GpuLayer
  buffer : Buffer

namespace Render

/-- Rust `impl Factory<RenderSpec> for Render::produce` (render.rs lines
121-138): produce one GpuLayer per composition layer in order
(short-circuiting on the first error), then produce the Buffer. -/
def produce (o : GpuOracle) (nextTex : Nat) (spec : RenderSpec) : Except Err Render :=
  match collectE (GpuLayer.produce o) spec.composition.layers with
  | .error e => .error e
  | .ok layers =>
    match Buffer.produce o nextTex { width := spec.width, height := spec.height } with
    | .error e => .error e
    | .ok buffer => .ok { layers := layers, buffer := buffer }

/-- Rust `Render::step` (render.rs lines 141-149): step every layer,
collecting results. -/
def step (r : Render) (frame : Nat) : Except Err Render :=
  match collectE (fun l => GpuLayer.step l frame) r.layers with
  | .error e => .error e
  | .ok layers => .ok { r with layers := layers }

/-- Rust `Render::cmds` (render.rs lines 167-169). -/
def cmds (r : Render) : List (GpuShader × GpuMesh) :=
  r.layers.map GpuLayer.render

/-- Rust `Render::render` (render.rs lines 151-161): draw all layer commands
into the buffer. -/
def render (r : Render) (o : GpuOracle) (library frame : Nat) :
    List Event × Except Err (List (GpuShader × GpuMesh)) :=
  r.buffer.draw o library frame r.cmds

/-- Rust `Render::buffer` accessor (render.rs lines 163-165). -/
def bufferFront (r : Render) : Nat :=
  r.buffer.front

end Render

/-!
Tessellation (`src/gpu/tessellation.rs`). The lyon triangulator is an external
dependency; its `fill_polyline` entry point is passed as an oracle whose
successful output buffers are assumed to satisfy lyon's triangle-list
contract. What the repository's own code does with such a buffer
(`Tessellation::from_fill_buffer`) is embedded directly.
-/

/-- A 2D point. Coordinates are modelled as integers: the tessellation claims
settled here concern counts and index validity, not coordinate arithmetic. -/
structure Point where
  x : Int
  y : Int
  deriving DecidableEq

/-- An RGBA color. -/
structure Color where
  r : Int
  g : Int
  b : Int
  a : Int
  deriving DecidableEq

/-- Colorer (external, spec section 6): a pure function mapping a 2D point to
a color. -/
def Colorer : Type := Point → Color

/-- lyon's `FillVertex`: position and normal. -/
structure FillVertex where
  position : Point
  normal : Point
  deriving DecidableEq

/-- lyon's `VertexBuffers<FillVertex>`: vertices plus triangle indices (the
source maps lyon's `u16` indices into `u32` value-preservingly; both are
modelled as `Nat`). -/
structure VertexBuffers where
  vertices : List FillVertex
  indices : List Nat
  deriving DecidableEq

/-- Rust `GpuVertex::from((point, color))`. -/
structure GpuVertex where
  pos : Point
  color : Color
  deriving DecidableEq

/-- Rust `GpuNormal { normal: (x, y, 0.0) }`. -/
structure GpuNormal where
  normal : Int × Int × Int
  deriving DecidableEq

/-- Rust `struct Tessellation` (tessellation.rs lines 12-17). -/
structure Tessellation where
  vertices : List GpuVertex
  normals : List GpuNormal
  indices : List Nat
  deriving DecidableEq

/-- Rust `Tessellation::from_fill_buffer` (tessellation.rs lines 19-34): for
each buffer vertex push one colored GPU vertex (color computed by the colorer
at that vertex's position) and one normal; copy the indices across. -/
def Tessellation.from_fill_buffer (buffer : VertexBuffers) (colorer : Colorer) :
    Tessellation :=
  { vertices := buffer.vertices.map
      (fun v => { pos := v.position, color := colorer v.position }),
    normals := buffer.vertices.map
      (fun v => { normal := (v.normal.x, v.normal.y, 0) }),
    indices := buffer.indices }

/-- A polygon-like shape (the `Poly` trait): an ordered vertex outline. -/
structure Polygon where
  vertices : List Point

/-- The triangle-list contract of the external lyon triangulator's output
(spec section 3: every index references a valid vertex position, the index
count is a multiple of 3; a successful fill of a closed outline produced at
least one vertex). -/
def FillBufferWF (buffer : VertexBuffers) : Prop :=
  buffer.vertices ≠ [] ∧ buffer.indices.length % 3 = 0 ∧
    ∀ i ∈ buffer.indices, i < buffer.vertices.length

/-- Rust `impl<P: Poly> Tessellate::tessellate_fill` (tessellation.rs lines
104-112), with the external lyon `fill_polyline` triangulator passed as an
oracle: triangulate the closed vertex outline (`?` propagates its error), then
build the Tessellation from the buffer. -/
def tessellate_fill (fill_polyline : List Point → Except Err VertexBuffers)
    (p : Polygon) (colorer : Colorer) : Except Err Tessellation :=
  match fill_polyline p.vertices with
  | .error e => .error e
  | .ok buffer => .ok (Tessellation.from_fill_buffer buffer colorer)

/-- The GPU call trace of one successful `Buffer::draw` pass over a command
list: for each command, one draw into target 0 (with target 1 as the optional
secondary read source) followed by one linear-filtered copy of target 0 into
target 1. -/
def layerTrace (b : Buffer) (library frame : Nat) :
    List (GpuShader × GpuMesh) → List Event
  | [] => []
  | c :: rest =>
    .draw c.1 library frame b.target0 c.2 (some b.target1) ::
      .fillCopy b.target0 b.target1 .linear :: layerTrace b library frame rest

/-! Concrete instances used by counterexamples and witnesses. -/

/-- A constant scale tween. -/
def scale0 : Scale := { tween := fun _ => 0 }

/-- Concrete mesh a. -/
def meshA : Mesh := { shape := 1, scale := scale0 }

/-- Concrete mesh b. -/
def meshB : Mesh := { shape := 2, scale := scale0 }

/-- Concrete mesh c. -/
def meshC : Mesh := { shape := 3, scale := scale0 }

/-- Concrete bare-mesh layer a. -/
def layerA : Layer := .mesh meshA

/-- Concrete bare-mesh layer b. -/
def layerB : Layer := .mesh meshB

/-- Concrete bare-mesh layer c. -/
def layerC : Layer := .mesh meshC

/-- A GPU oracle whose primitives all succeed. -/
def oW : GpuOracle :=
  { shaderProduce := fun _ => .ok (.program 0),
    meshProduce := fun m => .ok { src := m.shape, scale := 0 },
    drawPrim := fun _ _ _ _ _ _ => .ok () }

/-- The GPU mesh `oW` produces from the full-frame rectangle. -/
def gmFrame : GpuMesh := { src := 0, scale := 0 }

/-- The GPU mesh `oW` produces from `meshA`. -/
def gmA : GpuMesh := { src := 1, scale := 0 }

/-- The buffer `Buffer::produce oW 0` yields. -/
def bW : Buffer := { target0 := 0, target1 := 1, blitter := (.texture 0, gmFrame) }

/-- A concrete draw command. -/
def cmdW : GpuShader × GpuMesh := (.program 0, gmA)

/-- The GpuLayer `oW` produces from `layerA`. -/
def glW : GpuLayer := { src := meshA, shader := .program 0, cached_mesh := gmA }

/-- A concrete render spec holding the single layer `layerA`. -/
def specW : RenderSpec := { width := 4, height := 4, composition := { layers := [layerA] } }

/-- The Render `Render::produce oW 0 specW` yields. -/
def rW : Render := { layers := [glW], buffer := bW }

/-- A GPU oracle whose shader production and draw primitive both fail. -/
def oBad : GpuOracle :=
  { shaderProduce := fun _ => .error (.alloc 3),
    meshProduce := fun m => .ok { src := m.shape, scale := 0 },
    drawPrim := fun _ _ _ _ _ _ => .error (.drawFail 4) }

/-- A concrete 2D point. -/
def ptW : Point := { x := 0, y := 0 }

/-- A concrete fill vertex. -/
def fvW : FillVertex := { position := ptW, normal := ptW }

/-- A concrete triangulator output buffer: one triangle. -/
def bufW : VertexBuffers := { vertices := [fvW, fvW, fvW], indices := [0, 1, 2] }

/-- A concrete colorer. -/
def colorerW : Colorer := fun _ => { r := 0, g := 0, b := 0, a := 1 }

/-- A concrete polygon outline. -/
def polyW : Polygon := { vertices := [ptW, ptW, ptW] }

/-- A concrete triangulator oracle returning `bufW`. -/
def fpW : List Point → Except Err VertexBuffers := fun _ => .ok bufW

/-! Helper lemmas. -/

theorem LayerInput.drain_single (l : Layer) : (LayerInput.single l).drain = [l] := by
  rw [drain]
  simp only [next]
  rw [drain]
  simp [next, List.getLast?]

theorem LayerInput.drain_many_nil : (LayerInput.many []).drain = [] := by
  rw [drain]
  simp [next, List.getLast?]

theorem LayerInput.drain_many (ts : List Layer) :
    (LayerInput.many ts).drain = ts.reverse := by
  induction ts using List.reverseRecOn with
  | nil => exact drain_many_nil
  | append_singleton as a ih =>
    rw [drain]
    simp only [next]
    rw [List.getLast?_concat, List.dropLast_concat]
    simp [ih]

theorem LayerInput.drain_length (li : LayerInput) : li.drain.length = li.size := by
  cases li with
  | single l => simp [drain_single, size]
  | many ts => simp [drain_many, size]

theorem collectE_ok_map {α β : Type} (f : α → Except Err β) (g : α → β)
    (hf : ∀ a, f a = .ok (g a)) (as : List α) :
    collectE f as = .ok (as.map g) := by
  induction as with
  | nil => rfl
  | cons a as ih => simp [collectE, hf a, ih]

theorem collectE_first_error {α β : Type} (f : α → Except Err β)
    (pre post : List α) (bad : α) (e : Err)
    (hpre : ∀ a ∈ pre, ∃ b, f a = .ok b) (hbad : f bad = .error e) :
    collectE f (pre ++ bad :: post) = .error e := by
  induction pre with
  | nil => simp [collectE, hbad]
  | cons a as ih =>
    obtain ⟨b, hb⟩ := hpre a (by simp)
    have hr := ih (fun x hx => hpre x (by simp [hx]))
    simp [collectE, hb, hr]

theorem drawLoop_all_ok (b : Buffer) (o : GpuOracle) (library frame : Nat)
    (cmds : List (GpuShader × GpuMesh))
    (hok : ∀ c ∈ cmds,
      o.drawPrim c.1 library frame b.target0 c.2 (some b.target1) = .ok ()) :
    Buffer.drawLoop b o library frame cmds =
      (layerTrace b library frame cmds, .ok ()) := by
  induction cmds with
  | nil => rfl
  | cons c rest ih =>
    have h1 := hok c (by simp)
    have h2 := ih (fun x hx => hok x (by simp [hx]))
    simp [Buffer.drawLoop, h1, h2, layerTrace]

theorem drawLoop_first_error (b : Buffer) (o : GpuOracle) (library frame : Nat)
    (pre post : List (GpuShader × GpuMesh)) (s : GpuShader) (m : GpuMesh) (e : Err)
    (hpre : ∀ c ∈ pre,
      o.drawPrim c.1 library frame b.target0 c.2 (some b.target1) = .ok ())
    (hbad : o.drawPrim s library frame b.target0 m (some b.target1) = .error e) :
    Buffer.drawLoop b o library frame (pre ++ (s, m) :: post) =
      (layerTrace b library frame pre ++
        [.draw s library frame b.target0 m (some b.target1)], .error e) := by
  induction pre with
  | nil => simp [Buffer.drawLoop, hbad, layerTrace]
  | cons c rest ih =>
    have h1 := hpre c (by simp)
    have h2 := ih (fun x hx => hpre x (by simp [hx]))
    simp [Buffer.drawLoop, h1, h2, layerTrace]

theorem drawLoop_draw_mem (b : Buffer) (o : GpuOracle) (library frame : Nat)
    (cmds : List (GpuShader × GpuMesh))
    (s : GpuShader) (lib2 fr2 t : Nat) (m : GpuMesh) (sec : Option Nat)
    (hev : Event.draw s lib2 fr2 t m sec ∈
      (Buffer.drawLoop b o library frame cmds).1) :
    t = b.target0 ∧ sec = some b.target1 := by
  induction cmds with
  | nil => simp [Buffer.drawLoop] at hev
  | cons c rest ih =>
    cases hd : o.drawPrim c.1 library frame b.target0 c.2 (some b.target1) with
    | error e =>
      simp [Buffer.drawLoop, hd] at hev
      obtain ⟨-, -, -, h4, -, h6⟩ := hev
      exact ⟨h4, h6⟩
    | ok u =>
      cases hrest : Buffer.drawLoop b o library frame rest with
      | mk evs r =>
        rw [hrest] at ih
        simp [Buffer.drawLoop, hd, hrest] at hev
        rcases hev with h1 | h2
        · obtain ⟨-, -, -, h4, -, h6⟩ := h1
          exact ⟨h4, h6⟩
        · exact ih h2

theorem buffer_produce_ok (o : GpuOracle) (nextTex : Nat) (spec : BufferSpec)
    (b : Buffer) (h : Buffer.produce o nextTex spec = .ok b) :
    ∃ bm, o.meshProduce frameMesh = .ok bm ∧
      b = { target0 := nextTex, target1 := nextTex + 1,
            blitter := (GpuShader.texture nextTex, bm) } := by
  cases hm : o.meshProduce frameMesh with
  | error e => simp [Buffer.produce, hm] at h
  | ok bm =>
    refine ⟨bm, rfl, ?_⟩
    simp [Buffer.produce, hm] at h
    exact h.symm

theorem render_produce_ok (o : GpuOracle) (nextTex : Nat) (spec : RenderSpec)
    (r : Render) (h : Render.produce o nextTex spec = .ok r) :
    ∃ ls b, collectE (GpuLayer.produce o) spec.composition.layers = .ok ls ∧
      Buffer.produce o nextTex { width := spec.width, height := spec.height } = .ok b ∧
      r = { layers := ls, buffer := b } := by
  cases hl : collectE (GpuLayer.produce o) spec.composition.layers with
  | error e => simp [Render.produce, hl] at h
  | ok ls =>
    cases hb : Buffer.produce o nextTex { width := spec.width, height := spec.height } with
    | error e => simp [Render.produce, hl, hb] at h
    | ok b =>
      refine ⟨ls, b, rfl, rfl, ?_⟩
      simp [Render.produce, hl, hb] at h
      exact h.symm

/-! Claim results. -/

/-- C1 (counterexample): adding the collection [a, b, c] to an empty
Composition does NOT make layers() return a, b, c — the LayerInput iterator
drains a collection by popping the vector from the back, so layers() returns
c, b, a. This refutes the claim that a collection add equals three single
adds in original order. -/
theorem C1_collection_order_counterexample :
    (Composition.new.add (.many [layerA, layerB, layerC])).layers ≠
      [layerA, layerB, layerC] := by
  simp [Composition.new, Composition.add, LayerInput.drain_many,
    layerA, layerB, layerC, meshA, meshB, meshC]

/-- C1 (amended): a single-layer add appends that layer, preserving order,
but a collection add appends the collection's elements in REVERSE order:
adding [a, b, c] yields c, b, a from layers(), not a, b, c. -/
theorem C1_add_order (c : Composition) (l : Layer) (ts : List Layer) :
    (c.add (.single l)).layers = c.layers ++ [l] ∧
    (c.add (.many ts)).layers = c.layers ++ ts.reverse := by
  constructor <;>
    simp [Composition.add, LayerInput.drain_single, LayerInput.drain_many]

/-- C2: every layer produced by `Layer::once(source, f)` is a ShadedMesh whose
shader is Intermittent wrapping the source layer's original shader (Default
when the source layer was a bare mesh), with a predicate that is true if and
only if the tested frame equals `f`. -/
theorem C2_once_freezes (src : LayerInput) (f : Nat) (l : Layer)
    (h : l ∈ Layer.once src f) :
    ∃ (s : Shader) (m : Mesh) (p : Nat → Bool),
      l = .shadedMesh (.intermittent s p) m ∧
      (∀ n, p n = true ↔ n = f) ∧
      ((Layer.mesh m ∈ src.drain ∧ s = .defaultShader) ∨
        Layer.shadedMesh s m ∈ src.drain) := by
  simp only [Layer.once, List.mem_map] at h
  obtain ⟨l0, hl0, rfl⟩ := h
  cases l0 with
  | mesh m =>
    exact ⟨.defaultShader, m, fun current_frame => current_frame == f, rfl,
      fun n => by simp, .inl ⟨hl0, rfl⟩⟩
  | shadedMesh s m =>
    exact ⟨s, m, fun current_frame => current_frame == f, rfl,
      fun n => by simp, .inr hl0⟩

/-- C2 (witness): the single bare-mesh layer `layerA` frozen to frame 5. -/
theorem C2_once_freezes_witness :
    ∃ (s : Shader) (m : Mesh) (p : Nat → Bool),
      Layer.freeze_frame layerA 5 = .shadedMesh (.intermittent s p) m ∧
      (∀ n, p n = true ↔ n = 5) ∧
      ((Layer.mesh m ∈ (LayerInput.single layerA).drain ∧ s = .defaultShader) ∨
        Layer.shadedMesh s m ∈ (LayerInput.single layerA).drain) :=
  C2_once_freezes (.single layerA) 5 (Layer.freeze_frame layerA 5)
    (by simp [Layer.once, LayerInput.drain_single])

/-- C9: any sequence of add calls (any mix of single and collection inputs)
inserting N layers in total makes layers() return exactly N layers: the
flattening adapter and layers() drop and duplicate nothing. -/
theorem C9_addAll_count (c : Composition) (inputs : List LayerInput) :
    (c.addAll inputs).layers.length =
      c.layers.length + (inputs.map LayerInput.size).sum := by
  induction inputs generalizing c with
  | nil => simp [Composition.addAll]
  | cons i is ih =>
    have hstep : c.addAll (i :: is) = (c.add i).addAll is := rfl
    rw [hstep, ih]
    simp [Composition.add, LayerInput.drain_length]
    omega

/-- C5: stepping twice in direct succession with the same frame yields the
same resulting GPU mesh scale as stepping once, for a single GpuLayer and for
a whole Render: the scale after stepping is the tween of the retained CPU
mesh's scale at that frame, a pure function of the frame, not accumulated. -/
theorem C5_step_idempotent_scale :
    (∀ (l : GpuLayer) (f : Nat), ∃ l1 l2,
      l.step f = .ok l1 ∧ l1.step f = .ok l2 ∧
      l2.cached_mesh.scale = l1.cached_mesh.scale ∧
      l1.cached_mesh.scale = l.src.scale.tween f) ∧
    (∀ (r : Render) (f : Nat), ∃ r1 r2,
      r.step f = .ok r1 ∧ r1.step f = .ok r2 ∧
      r2.layers.map (fun l => l.cached_mesh.scale) =
        r1.layers.map (fun l => l.cached_mesh.scale) ∧
      r1.layers.map (fun l => l.cached_mesh.scale) =
        r.layers.map (fun l => l.src.scale.tween f)) := by
  constructor
  · intro l f
    exact ⟨_, _, rfl, rfl, rfl, rfl⟩
  · intro r f
    have hc1 := collectE_ok_map (fun l => GpuLayer.step l f) (stepped f)
      (fun a => rfl) r.layers
    have hc2 := collectE_ok_map (fun l => GpuLayer.step l f) (stepped f)
      (fun a => rfl) (r.layers.map (stepped f))
    refine ⟨{ r with layers := r.layers.map (stepped f) },
      { r with layers := (r.layers.map (stepped f)).map (stepped f) },
      ?_, ?_, ?_, ?_⟩
    · simp [Render.step, hc1]
    · simp [Render.step, hc2]
    · simp [List.map_map, Function.comp, stepped]
    · simp [List.map_map, Function.comp, stepped]

/-- C10: despite their fallible Result signatures, `GpuLayer::step` and
`Render::step` always return Ok; the error branch is unreachable. -/
theorem C10_step_infallible :
    (∀ (l : GpuLayer) (f : Nat), ∃ l2, l.step f = .ok l2) ∧
    (∀ (r : Render) (f : Nat), ∃ r2, r.step f = .ok r2) := by
  constructor
  · intro l f
    exact ⟨_, rfl⟩
  · intro r f
    have hc := collectE_ok_map (fun l => GpuLayer.step l f) (stepped f)
      (fun a => rfl) r.layers
    refine ⟨{ r with layers := r.layers.map (stepped f) }, ?_⟩
    simp [Render.step, hc]

/-- C3: for a Render built by `Render::produce` whose per-layer draws all
succeed, `Render::render(library, frame)` issues one draw per GpuLayer in
stored layer order into the write target (target 0), supplying the read
target (target 1) as the optional secondary input, performs a linear-filtered
copy of target 0 into target 1 after each draw, and returns exactly the
Buffer's blitter command set: one (shader, mesh) pair whose shader is a
Texture shader sampling target 0 and whose mesh is the GPU mesh produced from
the full-frame rectangle. -/
theorem C3_render_trace_and_blitter (o : GpuOracle) (nextTex library frame : Nat)
    (spec : RenderSpec) (r : Render) (bm : GpuMesh)
    (hp : Render.produce o nextTex spec = .ok r)
    (hbm : o.meshProduce frameMesh = .ok bm)
    (hok : ∀ c ∈ r.cmds,
      o.drawPrim c.1 library frame r.buffer.target0 c.2 (some r.buffer.target1) = .ok ()) :
    Render.render r o library frame =
      (layerTrace r.buffer library frame (r.layers.map GpuLayer.render),
        .ok [(GpuShader.texture r.buffer.target0, bm)]) ∧
    r.buffer.blitter = (GpuShader.texture r.buffer.target0, bm) := by
  obtain ⟨ls, b, hl, hb, rfl⟩ := render_produce_ok o nextTex spec r hp
  obtain ⟨bm2, hbm2, rfl⟩ := buffer_produce_ok o nextTex _ b hb
  rw [hbm] at hbm2
  cases hbm2
  have hok2 : ∀ c ∈ List.map GpuLayer.render ls,
      o.drawPrim c.1 library frame nextTex c.2 (some (nextTex + 1)) = .ok () := by
    simpa [Render.cmds] using hok
  have hloop := drawLoop_all_ok
    { target0 := nextTex, target1 := nextTex + 1,
      blitter := (GpuShader.texture nextTex, bm) } o library frame
    (List.map GpuLayer.render ls) hok2
  constructor
  · simp [Render.render, Render.cmds, Buffer.draw, hloop, Buffer.blitterCmds, Except.map]
  · rfl

/-- C3 (witness): the one-layer render `rW` under the all-succeeding oracle
`oW`, at library 7 and frame 9. -/
theorem C3_render_trace_and_blitter_witness :
    Render.render rW oW 7 9 =
      (layerTrace rW.buffer 7 9 (rW.layers.map GpuLayer.render),
        .ok [(GpuShader.texture rW.buffer.target0, gmFrame)]) ∧
    rW.buffer.blitter = (GpuShader.texture rW.buffer.target0, gmFrame) :=
  C3_render_trace_and_blitter oW 0 7 9 specW rW gmFrame rfl rfl
    (fun c _ => rfl)

/-- C4: in every draw issued during `Buffer::draw` on a produced Buffer, the
draw writes only into target 0 while target 1 is only passed as the passive
read source, and the two targets are distinct textures: no draw both reads
and writes the same target. -/
theorem C4_draw_roles_distinct (o : GpuOracle) (nextTex library frame : Nat)
    (bspec : BufferSpec) (b : Buffer) (cmds : List (GpuShader × GpuMesh))
    (hb : Buffer.produce o nextTex bspec = .ok b)
    (s : GpuShader) (lib2 fr2 t : Nat) (m : GpuMesh) (sec : Option Nat)
    (hev : Event.draw s lib2 fr2 t m sec ∈ (Buffer.draw b o library frame cmds).1) :
    t = b.target0 ∧ sec = some b.target1 ∧ t ≠ b.target1 := by
  have hfst : (Buffer.draw b o library frame cmds).1 =
      (Buffer.drawLoop b o library frame cmds).1 := by
    unfold Buffer.draw
    cases Buffer.drawLoop b o library frame cmds
    rfl
  rw [hfst] at hev
  obtain ⟨h1, h2⟩ := drawLoop_draw_mem b o library frame cmds s lib2 fr2 t m sec hev
  obtain ⟨bm, -, rfl⟩ := buffer_produce_ok o nextTex bspec b hb
  refine ⟨h1, h2, ?_⟩
  subst h1
  simp

/-- C4 (witness): the produced buffer `bW` drawing the single command `cmdW`
under `oW`. -/
theorem C4_draw_roles_distinct_witness :
    (0 : Nat) = bW.target0 ∧ some (1 : Nat) = some bW.target1 ∧
      (0 : Nat) ≠ bW.target1 :=
  C4_draw_roles_distinct oW 0 7 9 { width := 4, height := 4 } bW [cmdW] rfl
    (.program 0) 7 9 0 gmA (some 1) (by decide)

/-- C8: fallible core operations short-circuit on the first error: if
producing the GPU resource for some layer fails, `Render::produce` returns
that first error (no Render is produced); if a shader draw fails during
`Buffer::draw`, that error is returned immediately, the remaining layer draws
are not issued (the trace ends at the failing draw call), and no blitter
command set is returned. -/
theorem C8_short_circuit :
    (∀ (o : GpuOracle) (nextTex w h : Nat) (pre post : List Layer)
      (bad : Layer) (e : Err),
      (∀ l ∈ pre, ∃ g, GpuLayer.produce o l = .ok g) →
      GpuLayer.produce o bad = .error e →
      Render.produce o nextTex
        { width := w, height := h,
          composition := { layers := pre ++ bad :: post } } = .error e) ∧
    (∀ (o : GpuOracle) (b : Buffer) (library frame : Nat)
      (pre post : List (GpuShader × GpuMesh)) (s : GpuShader) (m : GpuMesh) (e : Err),
      (∀ c ∈ pre,
        o.drawPrim c.1 library frame b.target0 c.2 (some b.target1) = .ok ()) →
      o.drawPrim s library frame b.target0 m (some b.target1) = .error e →
      Buffer.draw b o library frame (pre ++ (s, m) :: post) =
        (layerTrace b library frame pre ++
          [.draw s library frame b.target0 m (some b.target1)], .error e)) := by
  constructor
  · intro o nextTex w h pre post bad e hpre hbad
    have hc := collectE_first_error (GpuLayer.produce o) pre post bad e hpre hbad
    simp [Render.produce, hc]
  · intro o b library frame pre post s m e hpre hbad
    have hc := drawLoop_first_error b o library frame pre post s m e hpre hbad
    simp [Buffer.draw, hc, Except.map]

/-- C8 (witness): the oracle `oBad` fails to produce the shader of `layerA`,
so `Render::produce` returns that error; its draw primitive fails on `cmdW`,
so `Buffer::draw` on `bW` returns that error after issuing only the failing
draw call. -/
theorem C8_short_circuit_witness :
    Render.produce oBad 0
      { width := 4, height := 4, composition := { layers := [layerA] } } =
      .error (.alloc 3) ∧
    Buffer.draw bW oBad 7 9 [cmdW] =
      ([.draw cmdW.1 7 9 bW.target0 cmdW.2 (some bW.target1)], .error (.drawFail 4)) :=
  ⟨C8_short_circuit.1 oBad 0 4 4 [] [] layerA (.alloc 3) (by simp) rfl,
   C8_short_circuit.2 oBad bW 7 9 [] [] (.program 0) gmA (.drawFail 4) (by simp) rfl⟩

/-- C6: when the external triangulator succeeds on a closed polygon outline
and its output buffer satisfies lyon's triangle-list contract, the resulting
Tessellation has a positive vertex count, an index count that is a multiple
of 3, and every index strictly below the vertex count. -/
theorem C6_fill_tessellation_wf
    (fill_polyline : List Point → Except Err VertexBuffers)
    (p : Polygon) (colorer : Colorer) (buffer : VertexBuffers) (t : Tessellation)
    (hb : fill_polyline p.vertices = .ok buffer)
    (hwf : FillBufferWF buffer)
    (ht : tessellate_fill fill_polyline p colorer = .ok t) :
    0 < t.vertices.length ∧ t.indices.length % 3 = 0 ∧
      ∀ i ∈ t.indices, i < t.vertices.length := by
  simp [tessellate_fill, hb] at ht
  obtain ⟨h1, h2, h3⟩ := hwf
  subst ht
  refine ⟨?_, ?_, ?_⟩
  · simp [Tessellation.from_fill_buffer]
    exact List.length_pos.mpr h1
  · simpa [Tessellation.from_fill_buffer] using h2
  · intro i hi
    simp [Tessellation.from_fill_buffer] at hi ⊢
    exact h3 i hi

/-- C6 (witness): the concrete one-triangle buffer `bufW`. -/
theorem C6_fill_tessellation_wf_witness :
    0 < (Tessellation.from_fill_buffer bufW colorerW).vertices.length ∧
    (Tessellation.from_fill_buffer bufW colorerW).indices.length % 3 = 0 ∧
    ∀ i ∈ (Tessellation.from_fill_buffer bufW colorerW).indices,
      i < (Tessellation.from_fill_buffer bufW colorerW).vertices.length :=
  C6_fill_tessellation_wf fpW polyW colorerW bufW
    (Tessellation.from_fill_buffer bufW colorerW) rfl
    ⟨by decide, by decide, by decide⟩ rfl

end Valora
